import Mathlib

/-!
Verification development for proj2_nps.py, a National Park Service site
browser with an on-disk JSON cache.  The Python source is shallowly
embedded: JSON values become an inductive type, the module-level CACHE
dictionary and the cache file become an explicit state record threaded
through every fetcher, network fetch plus HTML scraping becomes an oracle
supplying the extracted page data, and Python exceptions become Except.
-/

set_option autoImplicit false

namespace NPS

/-- JSON values, the value type of the cache dictionary and of API
responses.  Numbers are modelled as integers; no code path in the program
inspects a numeric cache value. -/
inductive Json where
  | null : Json
  | bool : Bool → Json
  | num : Int → Json
  | str : String → Json
  | arr : List Json → Json
  | obj : List (String × Json) → Json

/-- Python exceptions that the embedded code can raise. -/
inductive PyErr where
  | keyError : String → PyErr
  | typeError : String → PyErr
  | indexError : PyErr
  | osError : String → PyErr
  | valueError : String → PyErr
deriving DecidableEq, Repr

/-- Python dictionary lookup on an association list: first binding for the
key wins; the program only ever builds association lists with distinct
keys. -/
def dictLookup (d : List (String × Json)) (k : String) : Option Json :=
  match d with
  | [] => none
  | (k2, v) :: rest => if k2 = k then some v else dictLookup rest k

/-- Membership test, modelling the Python `in` operator on dictionaries. -/
def dictMem (d : List (String × Json)) (k : String) : Bool :=
  (dictLookup d k).isSome

/-- Python dictionary assignment d[k] = v: update in place when the key
exists, append a new binding otherwise. -/
def dictSet (d : List (String × Json)) (k : String) (v : Json) :
    List (String × Json) :=
  match d with
  | [] => [(k, v)]
  | (k2, v2) :: rest =>
    if k2 = k then (k2, v) :: rest else (k2, v2) :: dictSet rest k v

/-- ASCII space test, the whitespace the pages of this program contain. -/
def isSpaceChar (c : Char) : Bool :=
  c == ' ' || c == '\t' || c == '\n' || c == '\r'

/-- Model of str.strip restricted to ASCII whitespace: drop it from both
ends.  Defined by structural recursion on the character list so that
concrete calls reduce inside the kernel. -/
def pyStrip (s : String) : String :=
  String.mk (((s.toList.dropWhile isSpaceChar).reverse.dropWhile
    isSpaceChar).reverse)

/-- Lower one ASCII letter; other characters are unchanged. -/
def lowerChar (c : Char) : Char :=
  if 'A' ≤ c && c ≤ 'Z' then Char.ofNat (c.toNat + 32) else c

/-- Model of str.lower restricted to ASCII letters, the alphabet of the
state names and commands this program compares. -/
def pyLower (s : String) : String :=
  String.mk (s.toList.map lowerChar)

/-- Model of int() on a string of decimal digits. -/
def pyToNat (s : String) : Nat :=
  s.toList.foldl (fun acc c => acc * 10 + (c.toNat - 48)) 0

/-- Concatenate a list of strings by structural recursion. -/
def strConcat : List String → String
  | [] => ""
  | s :: rest => s ++ strConcat rest

/-- Escape one character for a JSON string literal.  Models the quoting
performed by json.dumps; only the quote and backslash escapes matter to
this program, whose cached strings contain neither. -/
def escapeChar (c : Char) : String :=
  if c = '"' then "\\\""
  else if c = '\\' then "\\\\"
  else c.toString

/-- Serialize a string as a JSON string literal. -/
def dumpsStr (s : String) : String :=
  "\"" ++ strConcat (s.toList.map escapeChar) ++ "\""

mutual

/-- JSON serialization, modelling json.dumps with its default separators. -/
def Json.dumps : Json → String
  | .null => "null"
  | .bool true => "true"
  | .bool false => "false"
  | .num n => toString n
  | .str s => dumpsStr s
  | .arr xs => "[" ++ dumpsArr xs ++ "]"
  | .obj m => "\x7b" ++ dumpsObj m ++ "\x7d"

/-- Serialize the elements of a JSON array, comma-space separated. -/
def dumpsArr : List Json → String
  | [] => ""
  | [x] => Json.dumps x
  | x :: y :: xs => Json.dumps x ++ ", " ++ dumpsArr (y :: xs)

/-- Serialize the entries of a JSON object, comma-space separated. -/
def dumpsObj : List (String × Json) → String
  | [] => ""
  | [(k, v)] => dumpsStr k ++ ": " ++ Json.dumps v
  | (k, v) :: e :: xs =>
    dumpsStr k ++ ": " ++ Json.dumps v ++ ", " ++ dumpsObj (e :: xs)

end

/-- The fixed cache file path (source line 11). -/
def CACHE_FILENAME : String := "cache.json"

/-- open_cache (source lines 13-31).  Reading the file and parsing its
contents are library effects, passed in as parameters: readCacheFile is
the outcome of open plus read on CACHE_FILENAME, loads models json.loads.
The try/except swallows every failure and yields an empty dictionary, so
the embedding is total: this function cannot raise. -/
def open_cache (readCacheFile : Except PyErr String)
    (loads : String → Except PyErr Json) : Json :=
  match readCacheFile with
  | .error _ => Json.obj []
  | .ok contents =>
    match loads contents with
    | .error _ => Json.obj []
    | .ok cache_dict => cache_dict

/-- save_cache (source lines 33-46): serialize the whole dictionary and
write it as the full new contents of the cache file.  The previous file
contents are not an input: the file is opened for writing, which
truncates it. -/
def save_cache (cache_dict : List (String × Json)) : String :=
  Json.dumps (Json.obj cache_dict)

/-- A national site record (source lines 50-76).  The class docstring
declares all five instance attributes to be strings, so the fields are
typed String here. -/
structure NationalSite where
  category : String
  name : String
  address : String
  zipcode : String
  phone : String
deriving DecidableEq, Repr

/-- NationalSite.info (source lines 77-89). -/
def NationalSite.info (s : NationalSite) : String :=
  s.name ++ " (" ++ s.category ++ "): " ++ s.address ++ " " ++ s.zipcode

/-- The __dict__ attribute mapping of a NationalSite, in the insertion
order of __init__ (source lines 71-76). -/
def NationalSite.toDict (s : NationalSite) : Json :=
  Json.obj [("category", Json.str s.category), ("name", Json.str s.name),
    ("address", Json.str s.address), ("zipcode", Json.str s.zipcode),
    ("phone", Json.str s.phone)]

/-- Python subscript j[k] on a JSON value: KeyError when the key is absent
from an object, TypeError when the value is not an object at all. -/
def pyDictGet (j : Json) (k : String) : Except PyErr Json :=
  match j with
  | .obj m =>
    match dictLookup m k with
    | some v => .ok v
    | none => .error (.keyError k)
  | _ => .error (.typeError "value is not subscriptable")

/-- Render a JSON value the way a Python f-string would.  Exact for
strings; every value this program interpolates is a string, so the
non-string fallback (JSON text) is never observable on program paths. -/
def pyStr : Json → String
  | .str s => s
  | j => Json.dumps j

/-- Python truthiness of a JSON value. -/
def pyTruthy : Json → Bool
  | .null => false
  | .bool b => b
  | .num n => n != 0
  | .str s => s != ""
  | .arr xs => !xs.isEmpty
  | .obj m => !m.isEmpty

/-- json_to_NationalSite (source lines 91-104).  The five subscripts are
evaluated left to right before the constructor runs, so the first absent
key raises KeyError. -/
def json_to_NationalSite (j : Json) : Except PyErr NationalSite :=
  match pyDictGet j "category" with
  | .error e => .error e
  | .ok c =>
    match pyDictGet j "name" with
    | .error e => .error e
    | .ok n =>
      match pyDictGet j "address" with
      | .error e => .error e
      | .ok a =>
        match pyDictGet j "zipcode" with
        | .error e => .error e
        | .ok z =>
          match pyDictGet j "phone" with
          | .error e => .error e
          | .ok p =>
            .ok ⟨pyStr c, pyStr n, pyStr a, pyStr z, pyStr p⟩

/-- nearby_places_info (source lines 229-259).  The name field is
subscripted with no falsiness guard; the other three fields fall back to
a placeholder only when the subscript succeeds and the value is falsy. -/
def nearby_places_info (place_dict : Json) : Except PyErr String :=
  match pyDictGet place_dict "name" with
  | .error e => .error e
  | .ok name =>
    match pyDictGet place_dict "group_sic_code_name_ext" with
    | .error e => .error e
    | .ok g =>
      let category := if !pyTruthy g then Json.str "no category" else g
      match pyDictGet place_dict "address" with
      | .error e => .error e
      | .ok a =>
        let address := if !pyTruthy a then Json.str "no address" else a
        match pyDictGet place_dict "city" with
        | .error e => .error e
        | .ok c =>
          let city := if !pyTruthy c then Json.str "no city" else c
          .ok (pyStr name ++ " (" ++ pyStr category ++ "): "
            ++ pyStr address ++ ", " ++ pyStr city)

/-- Process state threaded through every fetcher: the in-memory CACHE
dictionary, the contents of the cache file (none when the file does not
exist), and a count of requests.get calls issued so far. -/
structure PyState where
  cache : List (String × Json)
  disk : Option String
  netCalls : Nat

/-- The raw strings extracted from one site detail page, in source order:
the designation span contents, the title anchor contents, and the four
itemprop span contents (source lines 155-163, before any strip call). -/
structure SiteFields where
  category : String
  name : String
  addressLocality : String
  addressRegion : String
  postalCode : String
  telephone : String

/-- The network plus scraping oracle.  requests.get followed by the
BeautifulSoup extraction steps is deterministic for a fixed remote state;
each field below returns the data the scraping of one page kind yields.
Scraping selectors themselves are outside the modelled core. -/
structure Network where
  statesPage : List (String × String)
  sitePage : String → SiteFields
  listPage : String → List String
  searchApi : String → Json

/-- build_state_url_dict (source lines 106-133).  Cache hit on the fixed
key returns the cached value; cache miss scrapes the dropdown, builds the
dictionary with stripped lower-cased state names, stores it, saves the
cache and returns it. -/
def build_state_url_dict (net : Network) (s : PyState) : Json × PyState :=
  match dictLookup s.cache "states" with
  | some v => (v, s)
  | none =>
    let state_dict := net.statesPage.foldl
      (fun d item =>
        dictSet d (pyLower (pyStrip item.1))
          (Json.str ("https://www.nps.gov" ++ item.2))) []
    let cache2 := dictSet s.cache "states" (Json.obj state_dict)
    (Json.obj state_dict,
      ⟨cache2, some (save_cache cache2), s.netCalls + 1⟩)

/-- get_site_instance (source lines 135-167).  Cache hit reconstructs the
record from the cached attribute mapping; cache miss extracts the six raw
fields, strips the four address and contact fields, joins locality and
region with a comma and a space, stores the attribute mapping of the new
record and saves the cache. -/
def get_site_instance (net : Network) (s : PyState) (site_url : String) :
    Except PyErr NationalSite × PyState :=
  match dictLookup s.cache site_url with
  | some v => (json_to_NationalSite v, s)
  | none =>
    let f := net.sitePage site_url
    let category := f.category
    let name := f.name
    let city := pyStrip f.addressLocality
    let state := pyStrip f.addressRegion
    let address := city ++ ", " ++ state
    let zipcode := pyStrip f.postalCode
    let phone := pyStrip f.telephone
    let inst : NationalSite := ⟨category, name, address, zipcode, phone⟩
    let cache2 := dictSet s.cache site_url inst.toDict
    (.ok inst, ⟨cache2, some (save_cache cache2), s.netCalls + 1⟩)

/-- Reconstruction loop of the cache-hit branch of get_sites_for_state
(source lines 186-187): one json_to_NationalSite per cached entry, the
first failure aborting the whole call. -/
def sites_from_cache : List Json → Except PyErr (List NationalSite)
  | [] => .ok []
  | j :: rest =>
    match json_to_NationalSite j with
    | .error e => .error e
    | .ok inst =>
      match sites_from_cache rest with
      | .error e => .error e
      | .ok insts => .ok (inst :: insts)

/-- Per-header loop of the cache-miss branch of get_sites_for_state
(source lines 195-199): each href becomes one get_site_instance call,
accumulating both the record list and its raw attribute-mapping
counterpart in page order. -/
def get_sites_list (net : Network) :
    List String → PyState →
      Except PyErr (List NationalSite × List Json) × PyState
  | [], s => (.ok ([], []), s)
  | href :: rest, s =>
    match get_site_instance net s
        ("https://www.nps.gov" ++ href ++ "index.htm") with
    | (.error e, s2) => (.error e, s2)
    | (.ok inst, s2) =>
      match get_sites_list net rest s2 with
      | (.error e, s3) => (.error e, s3)
      | (.ok (insts, dicts), s3) =>
        (.ok (inst :: insts, inst.toDict :: dicts), s3)

/-- get_sites_for_state (source lines 170-202).  Cache hit rebuilds each
record from the cached list in order; cache miss fetches the listing
page, resolves every header in page order through get_site_instance,
stores the raw list and saves the cache. -/
def get_sites_for_state (net : Network) (s : PyState) (state_url : String) :
    Except PyErr (List NationalSite) × PyState :=
  match dictLookup s.cache state_url with
  | some (Json.arr cached) => (sites_from_cache cached, s)
  | some _ => (.error (.typeError "cached value is not a list"), s)
  | none =>
    let hrefs := net.listPage state_url
    let s1 : PyState := ⟨s.cache, s.disk, s.netCalls + 1⟩
    match get_sites_list net hrefs s1 with
    | (.error e, s2) => (.error e, s2)
    | (.ok (insts, dicts), s2) =>
      let cache2 := dictSet s2.cache state_url (Json.arr dicts)
      (.ok insts, ⟨cache2, some (save_cache cache2), s2.netCalls⟩)

/-- get_nearby_places (source lines 204-227).  The cache key is the zip
code of the site; cache miss issues one API request, stores the parsed
response verbatim and saves the cache. -/
def get_nearby_places (net : Network) (s : PyState)
    (site_object : NationalSite) : Json × PyState :=
  match dictLookup s.cache site_object.zipcode with
  | some v => (v, s)
  | none =>
    let results := net.searchApi site_object.zipcode
    let cache2 := dictSet s.cache site_object.zipcode results
    (results, ⟨cache2, some (save_cache cache2), s.netCalls + 1⟩)

/-- Model of str.isnumeric restricted to ASCII digits, the only numerals
the prompt expects. -/
def isnumeric (s : String) : Bool :=
  !s.toList.isEmpty && s.toList.all Char.isDigit

/-- Model of int() on a string that isnumeric accepted. -/
def pyInt (s : String) : Nat :=
  pyToNat s

/-- Python list subscript with an IndexError on an out-of-range index. -/
def pyListGet (xs : List NationalSite) (i : Nat) :
    Except PyErr NationalSite :=
  match xs.get? i with
  | some x => .ok x
  | none => .error .indexError

/-- The fixed error line of the state-selection loop (source line 298). -/
def invalid_state_msg : String := "[Error] Enter proper state name\n"

/-- The fixed error line of the site-selection loop (source lines 288 and
294). -/
def invalid_input_msg : String := "[Error] Invalid input"

/-- Outcome of one iteration of the inner site-selection loop. -/
inductive SiteSelOutcome where
  | proceed : NationalSite → Json → SiteSelOutcome
  | errorReprompt : SiteSelOutcome
  | exitProgram : SiteSelOutcome
  | backToStates : SiteSelOutcome
  | crash : PyErr → SiteSelOutcome

/-- One iteration of the site-selection loop (source lines 274-294).  The
input is lower-cased; a numeric input is admitted by the range check
range(1, count+1), where count is one past the number of listed sites,
and then used to subscript the site list; proceed carries the selected
site and the nearby-places response; errorReprompt prints
invalid_input_msg and re-prompts. -/
def site_selection_step (net : Network) (s : PyState)
    (sites : List NationalSite) (rawInp : String) :
    SiteSelOutcome × PyState :=
  let inp := pyLower rawInp
  if isnumeric inp then
    let n := pyInt inp
    let count := sites.length + 1
    if 1 ≤ n ∧ n ≤ count then
      match pyListGet sites (n - 1) with
      | .ok site =>
        let r := get_nearby_places net s site
        (.proceed site r.1, r.2)
      | .error e => (.crash e, s)
    else (.errorReprompt, s)
  else if inp = "exit" then (.exitProgram, s)
  else if inp = "back" then (.backToStates, s)
  else (.errorReprompt, s)

/-- Outcome of one iteration of the outer state-selection loop. -/
inductive LoopAction where
  | siteSelection : List NationalSite → LoopAction
  | exitLoop : LoopAction
  | continueLoop : LoopAction
  | crash : PyErr → LoopAction

/-- The banner and numbered listing printed for a recognized state
(source lines 267-273). -/
def listing_output (inp : String) (sites : List NationalSite) :
    List String :=
  ["------------------------------------",
   "List of national sites in " ++ inp,
   "------------------------------------"]
  ++ sites.enum.map (fun p => "[" ++ toString (p.1 + 1) ++ "] " ++ p.2.info)

/-- One iteration of the state-selection loop (source lines 263-298),
up to the point where the inner loop takes over: a recognized state name
runs get_sites_for_state and prints the listing, exit leaves the loop,
and anything else prints invalid_state_msg and re-prompts with the
process state untouched. -/
def main_loop_step (net : Network) (states : Json) (s : PyState)
    (rawInp : String) : LoopAction × PyState × List String :=
  let inp := pyLower rawInp
  match states with
  | Json.obj m =>
    match dictLookup m inp with
    | some (Json.str stateUrl) =>
      match get_sites_for_state net s stateUrl with
      | (.ok sites, s2) => (.siteSelection sites, s2, listing_output inp sites)
      | (.error e, s2) => (.crash e, s2, [])
    | some _ => (.crash (.typeError "state url is not a string"), s, [])
    | none =>
      if inp = "exit" then (.exitLoop, s, [])
      else (.continueLoop, s, [invalid_state_msg])
  | _ => (.crash (.typeError "states is not a dictionary"), s, [])

/-- A process state together with a later process state whose on-disk
cache file reflects every cache write completed so far: either nothing
was written (cache and file both untouched) or the file holds the full
serialization of the current in-memory cache. -/
def disk_in_sync (s s2 : PyState) : Prop :=
  (s2.cache = s.cache ∧ s2.disk = s.disk)
  ∨ s2.disk = some (save_cache s2.cache)

/-- Concrete national site used by the witnesses. -/
def exSite : NationalSite :=
  ⟨"National Park", "Isle Royale", "Houghton, MI", "49931",
   "(906) 482-0984"⟩

/-- Concrete raw detail-page fields used by the witnesses; stripping them
yields exactly the fields of exSite. -/
def exFields : SiteFields :=
  ⟨"National Park", "Isle Royale", " Houghton ", " MI ", " 49931 ",
   " (906) 482-0984 "⟩

/-- Concrete fetch oracle used by the witnesses. -/
def exNet : Network :=
  ⟨[("Michigan", "/state/mi/index.htm")],
   fun _ => exFields,
   fun _ => ["/isro/"],
   fun _ => Json.obj [("searchResults", Json.arr [])]⟩

/-- Fresh process state used by the witnesses: empty cache, no cache
file, no network calls issued. -/
def exState : PyState := ⟨[], none, 0⟩

/-- Process state used by the C10 witness: its cache holds one site
entry whose attribute mapping lacks every key but the category. -/
def exState10 : PyState :=
  ⟨[("https://www.nps.gov/badsite/index.htm",
     Json.obj [("category", Json.str "National Park")])], none, 0⟩

/-- Model of json.loads used by the C5 witness: accepts exactly the
serialization of the empty object. -/
def exLoads : String → Except PyErr Json := fun s =>
  if s = "\x7b\x7d" then .ok (Json.obj [])
  else .error (.valueError "invalid JSON")

/-- Concrete state directory used by the C8 witness. -/
def exStates : Json :=
  Json.obj [("michigan", Json.str "https://www.nps.gov/state/mi/index.htm")]

theorem dictLookup_dictSet_self (d : List (String × Json)) (k : String)
    (v : Json) : dictLookup (dictSet d k v) k = some v := by
  induction d with
  | nil => simp [dictSet, dictLookup]
  | cons hd tl ih =>
    by_cases h : hd.1 = k <;> simp [dictSet, dictLookup, h, ih]

theorem json_to_NationalSite_toDict (s : NationalSite) :
    json_to_NationalSite s.toDict = .ok s := rfl

theorem sites_from_cache_toDict (l : List NationalSite) :
    sites_from_cache (l.map NationalSite.toDict) = .ok l := by
  induction l with
  | nil => rfl
  | cons hd tl ih =>
    simp [sites_from_cache, json_to_NationalSite_toDict, ih]

/-- Claim C6: converting a Site Record to its attribute mapping and
reconstructing a record from that mapping yields a record equal to the
original in all five attributes. -/
theorem national_site_roundtrip (s : NationalSite) :
    json_to_NationalSite s.toDict = .ok s :=
  json_to_NationalSite_toDict s

/-- Claim C5: open_cache is total (the embedding of the try/except has no
failure outcome); a readable file whose contents parse returns exactly the
parsed value, and a read failure or a parse failure returns the empty
mapping. -/
theorem open_cache_never_fails_spec :
    (∀ (loads : String → Except PyErr Json) (s : String) (j : Json),
        loads s = .ok j → open_cache (.ok s) loads = j)
  ∧ (∀ (loads : String → Except PyErr Json) (e : PyErr),
        open_cache (.error e) loads = Json.obj [])
  ∧ (∀ (loads : String → Except PyErr Json) (s : String) (e : PyErr),
        loads s = .error e → open_cache (.ok s) loads = Json.obj []) := by
  refine ⟨fun loads s j h => ?_, fun loads e => ?_, fun loads s e h => ?_⟩ <;>
    simp [open_cache, *]

/-- Witness for claim C5 at concrete inputs: a file holding the empty
object parses to the empty mapping, a missing file yields the empty
mapping, and unparseable contents yield the empty mapping. -/
theorem open_cache_never_fails_spec_witness :
    open_cache (.ok "\x7b\x7d") exLoads = Json.obj []
  ∧ open_cache (.error (.osError "file not found")) exLoads = Json.obj []
  ∧ open_cache (.ok "not json") exLoads = Json.obj [] :=
  ⟨open_cache_never_fails_spec.1 exLoads "\x7b\x7d" (Json.obj []) rfl,
   open_cache_never_fails_spec.2.1 exLoads (.osError "file not found"),
   open_cache_never_fails_spec.2.2 exLoads "not json"
     (.valueError "invalid JSON") rfl⟩

/-- Claim C1 counterexample: a nearby-place record that lacks the city
key makes the formatter raise KeyError instead of producing a description
containing the placeholder. -/
theorem nearby_places_info_missing_city_raises :
    nearby_places_info (Json.obj [("name", Json.str "Park Cafe"),
        ("group_sic_code_name_ext", Json.str "Restaurant"),
        ("address", Json.str "1 Main St")])
      = .error (.keyError "city") := rfl

/-- Claim C1 as amended: on a record in which all four keys are present,
each of category, address and city whose value is empty is replaced by
its placeholder in the description, name is interpolated as-is with no
placeholder of its own, and non-empty values appear uncorrupted. -/
theorem nearby_places_info_placeholders (n c a t : String) :
    nearby_places_info (Json.obj [("name", Json.str n),
        ("group_sic_code_name_ext", Json.str c),
        ("address", Json.str a), ("city", Json.str t)])
      = .ok (n ++ " (" ++ (if c = "" then "no category" else c) ++ "): "
          ++ (if a = "" then "no address" else a) ++ ", "
          ++ (if t = "" then "no city" else t)) := by
  by_cases hc : c = "" <;> by_cases ha : a = "" <;> by_cases ht : t = "" <;>
    simp [nearby_places_info, pyDictGet, dictLookup, pyTruthy, pyStr,
      hc, ha, ht]

/-- Claim C2, the failing input evaluated: with one listed site, numeric
input 2 passes the range check range(1, count+1) and subscripts the site
list out of bounds, crashing with IndexError instead of printing the
invalid-input line. -/
theorem site_selection_off_by_one :
    site_selection_step exNet exState [exSite] "2"
      = (.crash .indexError, exState) := rfl

theorem get_sites_list_dicts (net : Network) :
    ∀ (urls : List String) (s s2 : PyState) (insts : List NationalSite)
      (dicts : List Json),
      get_sites_list net urls s = (.ok (insts, dicts), s2) →
      dicts = insts.map NationalSite.toDict := by
  intro urls
  induction urls with
  | nil =>
    intro s s2 insts dicts h
    simp [get_sites_list] at h
    simp [h.1.1, h.1.2]
  | cons hd tl ih =>
    intro s s2 insts dicts h
    simp only [get_sites_list] at h
    rcases hsi : get_site_instance net s
        ("https://www.nps.gov" ++ hd ++ "index.htm") with ⟨r1, sa⟩
    rw [hsi] at h
    cases r1 with
    | error e => simp at h
    | ok inst =>
      dsimp only at h
      rcases hgl : get_sites_list net tl sa with ⟨r2, sb⟩
      rw [hgl] at h
      cases r2 with
      | error e => simp at h
      | ok p =>
        rcases p with ⟨insts2, dicts2⟩
        dsimp only at h
        simp only [Prod.mk.injEq, Except.ok.injEq] at h
        obtain ⟨⟨hi, hdc⟩, hs⟩ := h
        subst hi
        subst hdc
        simp [ih sa sb insts2 dicts2 hgl]

theorem build_second_call (net : Network) (s : PyState) :
    build_state_url_dict net (build_state_url_dict net s).2
      = ((build_state_url_dict net s).1, (build_state_url_dict net s).2) := by
  cases h : dictLookup s.cache "states" with
  | some v => simp [build_state_url_dict, h]
  | none => simp [build_state_url_dict, h, dictLookup_dictSet_self]

theorem site_second_call (net : Network) (s : PyState) (site_url : String)
    (inst1 : NationalSite)
    (h1 : (get_site_instance net s site_url).1 = .ok inst1) :
    get_site_instance net (get_site_instance net s site_url).2 site_url
      = (.ok inst1, (get_site_instance net s site_url).2) := by
  cases h : dictLookup s.cache site_url with
  | some v =>
    simp only [get_site_instance, h] at h1 ⊢
    simp [h1]
  | none =>
    simp only [get_site_instance, h] at h1 ⊢
    simp [dictLookup_dictSet_self, json_to_NationalSite_toDict, ← h1]

theorem sites_second_call (net : Network) (s : PyState) (state_url : String)
    (sites1 : List NationalSite)
    (h2 : (get_sites_for_state net s state_url).1 = .ok sites1) :
    get_sites_for_state net (get_sites_for_state net s state_url).2 state_url
      = (.ok sites1, (get_sites_for_state net s state_url).2) := by
  cases h : dictLookup s.cache state_url with
  | some v =>
    cases v <;> simp only [get_sites_for_state, h] at h2 ⊢ <;> simp [h2]
  | none =>
    rcases hgl : get_sites_list net (net.listPage state_url)
        ⟨s.cache, s.disk, s.netCalls + 1⟩ with ⟨r, s2⟩
    cases r with
    | error e =>
      simp only [get_sites_for_state, h, hgl] at h2
      simp at h2
    | ok p =>
      rcases p with ⟨insts, dicts⟩
      have hd := get_sites_list_dicts net (net.listPage state_url) _ _ _ _ hgl
      subst hd
      simp only [get_sites_for_state, h, hgl] at h2 ⊢
      simp only [Except.ok.injEq] at h2
      subst h2
      simp [dictLookup_dictSet_self, sites_from_cache_toDict]

theorem nearby_second_call (net : Network) (s : PyState)
    (site : NationalSite) :
    get_nearby_places net (get_nearby_places net s site).2 site
      = ((get_nearby_places net s site).1,
         (get_nearby_places net s site).2) := by
  cases h : dictLookup s.cache site.zipcode with
  | some v => simp [get_nearby_places, h]
  | none => simp [get_nearby_places, h, dictLookup_dictSet_self]

/-- Claim C3: a second call to any of the four fetchers, with the cache
left as the first call produced it, returns the same result as the first
call and leaves the whole process state, including the count of network
requests issued, unchanged: the second call issues zero requests. -/
theorem fetch_idempotent_second_call
    (net : Network) (s : PyState) (site_url state_url : String)
    (site inst1 : NationalSite) (sites1 : List NationalSite)
    (h1 : (get_site_instance net s site_url).1 = .ok inst1)
    (h2 : (get_sites_for_state net s state_url).1 = .ok sites1) :
    build_state_url_dict net (build_state_url_dict net s).2
        = ((build_state_url_dict net s).1, (build_state_url_dict net s).2)
  ∧ get_site_instance net (get_site_instance net s site_url).2 site_url
        = (.ok inst1, (get_site_instance net s site_url).2)
  ∧ get_sites_for_state net (get_sites_for_state net s state_url).2
        state_url
        = (.ok sites1, (get_sites_for_state net s state_url).2)
  ∧ get_nearby_places net (get_nearby_places net s site).2 site
        = ((get_nearby_places net s site).1,
           (get_nearby_places net s site).2) :=
  ⟨build_second_call net s, site_second_call net s site_url inst1 h1,
   sites_second_call net s state_url sites1 h2,
   nearby_second_call net s site⟩

/-- Witness for claim C3: concrete first calls from an empty cache
against the concrete oracle, then the second calls. -/
theorem fetch_idempotent_second_call_witness :
    build_state_url_dict exNet (build_state_url_dict exNet exState).2
        = ((build_state_url_dict exNet exState).1,
           (build_state_url_dict exNet exState).2)
  ∧ get_site_instance exNet
        (get_site_instance exNet exState
          "https://www.nps.gov/isro/index.htm").2
        "https://www.nps.gov/isro/index.htm"
        = (.ok exSite,
           (get_site_instance exNet exState
             "https://www.nps.gov/isro/index.htm").2)
  ∧ get_sites_for_state exNet
        (get_sites_for_state exNet exState
          "https://www.nps.gov/state/mi/index.htm").2
        "https://www.nps.gov/state/mi/index.htm"
        = (.ok [exSite],
           (get_sites_for_state exNet exState
             "https://www.nps.gov/state/mi/index.htm").2)
  ∧ get_nearby_places exNet (get_nearby_places exNet exState exSite).2
        exSite
        = ((get_nearby_places exNet exState exSite).1,
           (get_nearby_places exNet exState exSite).2) :=
  fetch_idempotent_second_call exNet exState
    "https://www.nps.gov/isro/index.htm"
    "https://www.nps.gov/state/mi/index.htm"
    exSite exSite [exSite] (by rfl) (by rfl)

/-- Claim C4: when the site list for a state URL is fetched on a cache
miss and a second call for the same URL then hits the cache, the second
call returns the same sequence of records, element for element and in
the same order. -/
theorem get_sites_order_preserved
    (net : Network) (s : PyState) (state_url : String)
    (sites1 : List NationalSite)
    (hmiss : dictLookup s.cache state_url = none)
    (h : (get_sites_for_state net s state_url).1 = .ok sites1) :
    (get_sites_for_state net (get_sites_for_state net s state_url).2
        state_url).1
      = .ok sites1 := by
  have _hm := hmiss
  rw [sites_second_call net s state_url sites1 h]

/-- Witness for claim C4: the concrete miss-then-hit pair of calls for
the Michigan listing URL. -/
theorem get_sites_order_preserved_witness :
    (get_sites_for_state exNet
        (get_sites_for_state exNet exState
          "https://www.nps.gov/state/mi/index.htm").2
        "https://www.nps.gov/state/mi/index.htm").1
      = .ok [exSite] :=
  get_sites_order_preserved exNet exState
    "https://www.nps.gov/state/mi/index.htm" [exSite] rfl (by rfl)

theorem disk_in_sync_trans {s1 s2 s3 : PyState}
    (h12 : disk_in_sync s1 s2) (h23 : disk_in_sync s2 s3) :
    disk_in_sync s1 s3 := by
  rcases h23 with ⟨hc, hd⟩ | hs
  · rcases h12 with ⟨hc2, hd2⟩ | hs2
    · exact Or.inl ⟨hc.trans hc2, hd.trans hd2⟩
    · exact Or.inr (hd.trans (hc ▸ hs2))
  · exact Or.inr hs

theorem site_instance_sync (net : Network) (s : PyState)
    (site_url : String) :
    disk_in_sync s (get_site_instance net s site_url).2 := by
  cases h : dictLookup s.cache site_url with
  | some v => simp [get_site_instance, h, disk_in_sync]
  | none => simp [get_site_instance, h, disk_in_sync]

theorem sites_list_sync (net : Network) :
    ∀ (urls : List String) (s : PyState),
      disk_in_sync s (get_sites_list net urls s).2 := by
  intro urls
  induction urls with
  | nil => intro s; exact Or.inl ⟨rfl, rfl⟩
  | cons hd tl ih =>
    intro s
    simp only [get_sites_list]
    rcases hsi : get_site_instance net s
        ("https://www.nps.gov" ++ hd ++ "index.htm") with ⟨r1, sa⟩
    have ha : disk_in_sync s sa := by
      have := site_instance_sync net s
        ("https://www.nps.gov" ++ hd ++ "index.htm")
      rwa [hsi] at this
    cases r1 with
    | error e => exact ha
    | ok inst =>
      dsimp only
      rcases hgl : get_sites_list net tl sa with ⟨r2, sb⟩
      have hb : disk_in_sync sa sb := by
        have := ih sa
        rwa [hgl] at this
      cases r2 with
      | error e => exact disk_in_sync_trans ha hb
      | ok p =>
        rcases p with ⟨insts2, dicts2⟩
        exact disk_in_sync_trans ha hb

theorem sites_for_state_sync (net : Network) (s : PyState)
    (state_url : String) :
    disk_in_sync s (get_sites_for_state net s state_url).2 := by
  cases h : dictLookup s.cache state_url with
  | some v => cases v <;> simp [get_sites_for_state, h, disk_in_sync]
  | none =>
    simp only [get_sites_for_state, h]
    rcases hgl : get_sites_list net (net.listPage state_url)
        ⟨s.cache, s.disk, s.netCalls + 1⟩ with ⟨r, s2⟩
    have hb : disk_in_sync s s2 := by
      have h1 : disk_in_sync s ⟨s.cache, s.disk, s.netCalls + 1⟩ :=
        Or.inl ⟨rfl, rfl⟩
      have h2 := sites_list_sync net (net.listPage state_url)
        ⟨s.cache, s.disk, s.netCalls + 1⟩
      rw [hgl] at h2
      exact disk_in_sync_trans h1 h2
    cases r with
    | error e => exact hb
    | ok p =>
      rcases p with ⟨insts, dicts⟩
      exact Or.inr rfl

/-- Claim C7: after any of the four fetchers returns, the on-disk cache
file reflects every completed cache write: either the call left both the
in-memory cache and the file untouched, or the file holds the full
serialization (save_cache, a whole-file overwrite that ignores the
previous file contents) of the final in-memory cache. -/
theorem every_write_saved (net : Network) (s : PyState)
    (site_url state_url : String) (site : NationalSite) :
    disk_in_sync s (build_state_url_dict net s).2
  ∧ disk_in_sync s (get_site_instance net s site_url).2
  ∧ disk_in_sync s (get_sites_for_state net s state_url).2
  ∧ disk_in_sync s (get_nearby_places net s site).2 := by
  refine ⟨?_, site_instance_sync net s site_url,
    sites_for_state_sync net s state_url, ?_⟩
  · cases h : dictLookup s.cache "states" with
    | some v => simp [build_state_url_dict, h, disk_in_sync]
    | none => simp [build_state_url_dict, h, disk_in_sync]
  · cases h : dictLookup s.cache site.zipcode with
    | some v => simp [get_nearby_places, h, disk_in_sync]
    | none => simp [get_nearby_places, h, disk_in_sync]

/-- Claim C8: an unrecognized state name entered at state-selection,
here the literal input Atlantis against a directory that lacks that
name, produces exactly the fixed invalid-state line, continues the same
loop, and returns the process state unchanged, so neither the in-memory
cache nor the cache file is touched. -/
theorem invalid_state_no_mutation (net : Network)
    (m : List (String × Json)) (s : PyState)
    (h : dictLookup m "atlantis" = none) :
    main_loop_step net (Json.obj m) s "Atlantis"
      = (.continueLoop, s, [invalid_state_msg]) := by
  have hl : pyLower "Atlantis" = "atlantis" := rfl
  simp only [main_loop_step, hl, h]
  rw [if_neg (by decide)]

/-- Witness for claim C8: the concrete directory that maps only
michigan. -/
theorem invalid_state_no_mutation_witness :
    main_loop_step exNet exStates exState "Atlantis"
      = (.continueLoop, exState, [invalid_state_msg]) :=
  invalid_state_no_mutation exNet
    [("michigan", Json.str "https://www.nps.gov/state/mi/index.htm")]
    exState rfl

/-- Claim C9: on a cache miss the site-detail fetcher returns the record
whose address is the extracted locality and the extracted region joined
by a comma and a space. -/
theorem site_address_comma_space (net : Network) (s : PyState)
    (site_url : String)
    (hmiss : dictLookup s.cache site_url = none) :
    (get_site_instance net s site_url).1
      = .ok ⟨(net.sitePage site_url).category,
          (net.sitePage site_url).name,
          pyStrip (net.sitePage site_url).addressLocality ++ ", "
            ++ pyStrip (net.sitePage site_url).addressRegion,
          pyStrip (net.sitePage site_url).postalCode,
          pyStrip (net.sitePage site_url).telephone⟩ := by
  simp [get_site_instance, hmiss]

/-- Witness for claim C9: the concrete miss against the concrete
oracle. -/
theorem site_address_comma_space_witness :
    (get_site_instance exNet exState
        "https://www.nps.gov/isro/index.htm").1
      = .ok ⟨(exNet.sitePage "https://www.nps.gov/isro/index.htm").category,
          (exNet.sitePage "https://www.nps.gov/isro/index.htm").name,
          pyStrip (exNet.sitePage
              "https://www.nps.gov/isro/index.htm").addressLocality
            ++ ", "
            ++ pyStrip (exNet.sitePage
              "https://www.nps.gov/isro/index.htm").addressRegion,
          pyStrip (exNet.sitePage
            "https://www.nps.gov/isro/index.htm").postalCode,
          pyStrip (exNet.sitePage
            "https://www.nps.gov/isro/index.htm").telephone⟩ :=
  site_address_comma_space exNet exState
    "https://www.nps.gov/isro/index.htm" rfl

/-- Claim C10: when the cached entry for a site URL is an attribute
mapping lacking one of the five record keys, the cache-hit path of the
site-detail fetcher raises KeyError for some key instead of returning a
record, and leaves the process state untouched: cached contents are
trusted without validation or repair. -/
theorem cached_missing_key_raises (net : Network) (s : PyState)
    (site_url : String) (m : List (String × Json)) (k : String)
    (hc : dictLookup s.cache site_url = some (Json.obj m))
    (hk : k ∈ ["category", "name", "address", "zipcode", "phone"])
    (hmiss : dictLookup m k = none) :
    (∃ k2, (get_site_instance net s site_url).1 = .error (.keyError k2))
  ∧ (get_site_instance net s site_url).2 = s := by
  refine ⟨?_, by simp [get_site_instance, hc]⟩
  simp only [get_site_instance, hc]
  simp only [List.mem_cons, List.not_mem_nil, or_false] at hk
  cases h1 : dictLookup m "category" with
  | none => exact ⟨"category", by simp [json_to_NationalSite, pyDictGet, h1]⟩
  | some v1 =>
  cases h2 : dictLookup m "name" with
  | none =>
    exact ⟨"name", by simp [json_to_NationalSite, pyDictGet, h1, h2]⟩
  | some v2 =>
  cases h3 : dictLookup m "address" with
  | none =>
    exact ⟨"address", by simp [json_to_NationalSite, pyDictGet, h1, h2, h3]⟩
  | some v3 =>
  cases h4 : dictLookup m "zipcode" with
  | none =>
    exact ⟨"zipcode",
      by simp [json_to_NationalSite, pyDictGet, h1, h2, h3, h4]⟩
  | some v4 =>
  cases h5 : dictLookup m "phone" with
  | none =>
    exact ⟨"phone",
      by simp [json_to_NationalSite, pyDictGet, h1, h2, h3, h4, h5]⟩
  | some v5 =>
    rcases hk with rfl | rfl | rfl | rfl | rfl <;> simp_all

/-- Witness for claim C10: a cached site entry holding only the category
key. -/
theorem cached_missing_key_raises_witness :
    (∃ k2, (get_site_instance exNet exState10
        "https://www.nps.gov/badsite/index.htm").1
      = .error (.keyError k2))
  ∧ (get_site_instance exNet exState10
        "https://www.nps.gov/badsite/index.htm").2 = exState10 :=
  cached_missing_key_raises exNet exState10
    "https://www.nps.gov/badsite/index.htm"
    [("category", Json.str "National Park")] "phone" rfl (by decide) rfl

end NPS
